import Mathlib

/-
  Verification development for the Cartlis API-governance engine.

  The Python sources `cartlis_governance.py` (rule validator) and `fixer.py`
  (mutation engine) are shallowly embedded below.  YAML/JSON documents are
  modelled by the inductive type `J` of value trees; Python dictionary and
  list operations, including the exceptions they raise (KeyError, IndexError,
  TypeError, AttributeError), are modelled by small total functions into
  `Except PyErr`.  In-place mutation of the shared document is modelled by
  functional write-back along the access path, which is equivalent because
  the parsed documents are trees.  I/O (prints, file writes) and the external
  `openapi_spec_validator.validate_spec` call (whose exception is caught) are
  modelled as no-ops; the external text-generation call inside
  `generate_ai_content` is modelled by a function parameter
  `ai : String -> Except PyErr String`.

  Model restrictions: dictionary keys are strings (as in all documents the
  tool processes), numeric and float leaves are not represented, and
  character case conversion is ASCII (the code's own regexes are ASCII).
-/

namespace Cartlis

/-- A Python/YAML value tree: None, strings, booleans, lists and
(insertion-ordered, string-keyed) dictionaries. -/
inductive J where
  | null : J
  | str : String → J
  | bool : Bool → J
  | arr : List J → J
  | obj : List (String × J) → J

/-- The Python exceptions the embedded code can raise. -/
inductive PyErr where
  | keyError (k : String)
  | keyErrorOther
  | indexError
  | typeError
  | attributeError
deriving Repr, DecidableEq

/-- Test for the Python value `None`. -/
def isNull : J → Bool
  | .null => true
  | _ => false

/-- Python truthiness of a value (`if x:`). -/
def truthy : J → Bool
  | .null => false
  | .bool b => b
  | .str s => !s.isEmpty
  | .arr xs => !xs.isEmpty
  | .obj kvs => !kvs.isEmpty

/-- Python `==` between a value and a string literal. -/
def jEqStr (j : J) (s : String) : Bool :=
  match j with
  | .str t => t == s
  | _ => false

/-- First-match association lookup over dictionary entries. -/
def lookupK : List (String × J) → String → Option J
  | [], _ => none
  | (k, v) :: rest, key => if k == key then some v else lookupK rest key

/-- Key-presence test over dictionary entries. -/
def hasK (kvs : List (String × J)) (k : String) : Bool :=
  (lookupK kvs k).isSome

/-- Python dict assignment `d[k] = v`: replace in place if the key exists,
otherwise append at the end (insertion order). -/
def setK : List (String × J) → String → J → List (String × J)
  | [], key, v => [(key, v)]
  | (k, w) :: rest, key, v =>
      if k == key then (k, v) :: rest else (k, w) :: setK rest key v

/-- Removal of a key from dictionary entries (for `dict.pop`). -/
def delK : List (String × J) → String → List (String × J)
  | [], _ => []
  | (k, w) :: rest, key => if k == key then rest else (k, w) :: delK rest key

/-- Python deep equality `==` on values. -/
def beqJ : J → J → Bool
  | .null, .null => true
  | .str a, .str b => a == b
  | .bool a, .bool b => a == b
  | .arr [], .arr [] => true
  | .arr (x :: xs), .arr (y :: ys) => beqJ x y && beqJ (.arr xs) (.arr ys)
  | .obj [], .obj [] => true
  | .obj ((k, x) :: xs), .obj ((l, y) :: ys) =>
      k == l && beqJ x y && beqJ (.obj xs) (.obj ys)
  | _, _ => false

/-- Python subscript `d[k]` with a string key: dictionary lookup raising
KeyError when absent; subscripting a non-dictionary with a string raises
TypeError. -/
def pyGet (d : J) (k : String) : Except PyErr J :=
  match d with
  | .obj kvs =>
      match lookupK kvs k with
      | some v => .ok v
      | none => .error (.keyError k)
  | _ => .error .typeError

/-- Python subscript `d[k]` where the key is itself a runtime value. -/
def pyGetK (d : J) (k : J) : Except PyErr J :=
  match d, k with
  | .obj kvs, .str s =>
      (match lookupK kvs s with
       | some v => .ok v
       | none => .error (.keyError s))
  | .obj _, .arr _ => .error .typeError
  | .obj _, .obj _ => .error .typeError
  | .obj _, _ => .error .keyErrorOther
  | _, _ => .error .typeError

/-- Python assignment `d[k] = v` with a string key. -/
def pySet (d : J) (k : String) (v : J) : Except PyErr J :=
  match d with
  | .obj kvs => .ok (.obj (setK kvs k v))
  | _ => .error .typeError

/-- Python assignment `d[k] = v` where the key is a runtime value. -/
def pySetK (d : J) (k : J) (v : J) : Except PyErr J :=
  match d, k with
  | .obj kvs, .str s => .ok (.obj (setK kvs s v))
  | _, _ => .error .typeError

/-- Python `d.get(k, default)`: only dictionaries have `.get`
(AttributeError otherwise); a key present with value None yields None. -/
def pyGetD (d : J) (k : String) (dflt : J) : Except PyErr J :=
  match d with
  | .obj kvs => .ok ((lookupK kvs k).getD dflt)
  | _ => .error .attributeError

/-- Python `d.pop(k)` with a runtime key: dictionaries pop by key, lists
reject string arguments with TypeError, other values lack `.pop`. -/
def pyPopK (d : J) (k : J) : Except PyErr (J × J) :=
  match d, k with
  | .obj kvs, .str s =>
      (match lookupK kvs s with
       | some v => .ok (v, .obj (delK kvs s))
       | none => .error (.keyError s))
  | .obj _, _ => .error .keyErrorOther
  | .arr _, _ => .error .typeError
  | _, _ => .error .attributeError

/-- Python `d.items()`. -/
def pyItems (d : J) : Except PyErr (List (String × J)) :=
  match d with
  | .obj kvs => .ok kvs
  | _ => .error .attributeError

/-- Python `d.keys()`. -/
def pyKeys (d : J) : Except PyErr (List String) :=
  match d with
  | .obj kvs => .ok (kvs.map Prod.fst)
  | _ => .error .attributeError

/-- Python iteration `for x in d`: dictionaries yield their keys, lists
their elements, strings their characters; other values are not iterable. -/
def pyIter (d : J) : Except PyErr (List J) :=
  match d with
  | .obj kvs => .ok (kvs.map (fun kv => J.str kv.1))
  | .arr xs => .ok xs
  | .str s => .ok (s.data.map (fun c => J.str ⟨[c]⟩))
  | _ => .error .typeError

/-- Boolean prefix test on character lists. -/
def prefixB : List Char → List Char → Bool
  | [], _ => true
  | _ :: _, [] => false
  | a :: as, b :: bs => a == b && prefixB as bs

/-- Boolean substring test on character lists (Python `in` on strings). -/
def substrB (pat : List Char) : List Char → Bool
  | [] => prefixB pat []
  | c :: rest => prefixB pat (c :: rest) || substrB pat rest

/-- Python `k in d` for a string `k`: key membership for dictionaries,
element membership for lists, substring for strings. -/
def pyInS (k : String) (d : J) : Except PyErr Bool :=
  match d with
  | .obj kvs => .ok (hasK kvs k)
  | .arr xs => .ok (xs.any (fun x => jEqStr x k))
  | .str s => .ok (substrB k.data s.data)
  | _ => .error .typeError

/-- Python `x in d` for a runtime value `x`: unhashable keys (lists,
dictionaries) raise TypeError against dictionaries. -/
def pyInJ (x : J) (d : J) : Except PyErr Bool :=
  match x with
  | .str s => pyInS s d
  | .arr _ =>
      (match d with
       | .obj _ => .error .typeError
       | .arr xs => .ok (xs.any (fun y => beqJ y x))
       | _ => .error .typeError)
  | .obj _ =>
      (match d with
       | .obj _ => .error .typeError
       | .arr xs => .ok (xs.any (fun y => beqJ y x))
       | _ => .error .typeError)
  | _ =>
      (match d with
       | .obj _ => .ok false
       | .arr xs => .ok (xs.any (fun y => beqJ y x))
       | _ => .error .typeError)

/-- Python subscript `d[0]`. -/
def pyIndex0 (d : J) : Except PyErr J :=
  match d with
  | .arr [] => .error .indexError
  | .arr (x :: _) => .ok x
  | .str s =>
      (match s.data with
       | [] => .error .indexError
       | c :: _ => .ok (.str ⟨[c]⟩))
  | .obj _ => .error .keyErrorOther
  | _ => .error .typeError

/-- Python `d.update(kvs)` on a dictionary. -/
def pyUpdate (d : J) (kvs : List (String × J)) : Except PyErr J :=
  match d with
  | .obj base => .ok (.obj (kvs.foldl (fun acc kv => setK acc kv.1 kv.2) base))
  | _ => .error .attributeError

/-- Is `c` an ASCII uppercase letter (regex class A-Z)? -/
def isAsciiUpper (c : Char) : Bool :=
  65 ≤ c.toNat && c.toNat ≤ 90

/-- Is `c` an ASCII lowercase letter (regex class a-z)? -/
def isAsciiLower (c : Char) : Bool :=
  97 ≤ c.toNat && c.toNat ≤ 122

/-- ASCII model of Python `str.lower` on a single character. -/
def pyLowerChar (c : Char) : Char :=
  if h : 65 ≤ c.toNat ∧ c.toNat ≤ 90 then
    Char.ofNatAux (c.toNat + 32) (Or.inl (by omega))
  else c

/-- ASCII model of Python `str.upper` on a single character. -/
def pyUpperChar (c : Char) : Char :=
  if h : 97 ≤ c.toNat ∧ c.toNat ≤ 122 then
    Char.ofNatAux (c.toNat - 32) (Or.inl (by omega))
  else c

/-- Python `s.upper()` on a runtime value: AttributeError on non-strings. -/
def pyUpperJ (j : J) : Except PyErr String :=
  match j with
  | .str s => .ok ⟨s.data.map pyUpperChar⟩
  | _ => .error .attributeError

/-- Python whitespace for `str.strip`. -/
def isPySpace (c : Char) : Bool :=
  c == ' ' || c == '\t' || c == '\n' || c == '\r' || c == '\x0b' || c == '\x0c'

/-- Python `s.strip()`. -/
def pyStrip (s : String) : String :=
  ⟨(((s.data.dropWhile isPySpace).reverse.dropWhile isPySpace).reverse)⟩

mutual

/-- Python `repr` of a value, as rendered inside f-strings for containers. -/
def jRepr : J → String
  | .null => "None"
  | .bool true => "True"
  | .bool false => "False"
  | .str s => "\x27" ++ s ++ "\x27"
  | .arr xs => "[" ++ jReprList xs ++ "]"
  | .obj kvs => "\x7b" ++ jReprObj kvs ++ "\x7d"

/-- Comma-joined reprs of list elements. -/
def jReprList : List J → String
  | [] => ""
  | [x] => jRepr x
  | x :: xs => jRepr x ++ ", " ++ jReprList xs

/-- Comma-joined reprs of dictionary entries. -/
def jReprObj : List (String × J) → String
  | [] => ""
  | [(k, v)] => "\x27" ++ k ++ "\x27: " ++ jRepr v
  | (k, v) :: kvs => "\x27" ++ k ++ "\x27: " ++ jRepr v ++ ", " ++ jReprObj kvs

end

/-- Python `str(j)` as used in f-string interpolation. -/
def jStr (j : J) : String :=
  match j with
  | .str s => s
  | other => jRepr other

/-! ### Naming helpers of `fixer.py` -/

/-- The insertion pass of `to_snake_case`: the regex
`(?<!^)(?=[A-Z])` puts an underscore before every uppercase letter that is
not at the start of the string; this function handles all positions after
the first character. -/
def snakeIns : List Char → List Char
  | [] => []
  | c :: cs => (if isAsciiUpper c then ['_', c] else [c]) ++ snakeIns cs

/-- `to_snake_case` from `fixer.py`: insert an underscore before each
internal uppercase letter, then lowercase the whole string. -/
def to_snake_case (s : String) : String :=
  match s.data with
  | [] => ⟨[]⟩
  | c :: cs => ⟨(c :: snakeIns cs).map pyLowerChar⟩

/-- Split a character list on underscores (Python `name.split` with
separator underscore, keeping empty segments). -/
def splitUnd : List Char → List Char → List (List Char)
  | [], acc => [acc.reverse]
  | c :: rest, acc =>
      if c = '_' then acc.reverse :: splitUnd rest []
      else splitUnd rest (c :: acc)

/-- Is `c` an ASCII letter? (model of Python "cased" characters). -/
def isAsciiAlpha (c : Char) : Bool :=
  isAsciiUpper c || isAsciiLower c

/-- Python `s.title()` on one underscore-free segment: uppercase each
letter that does not follow a letter, lowercase the others. -/
def titleGo : List Char → Bool → List Char
  | [], _ => []
  | c :: rest, prevAlpha =>
      (if isAsciiAlpha c then
        (if prevAlpha then pyLowerChar c else pyUpperChar c)
       else c) :: titleGo rest (isAsciiAlpha c)

/-- `to_camel_case` from `fixer.py`: split on underscores, keep the first
segment, title-case and concatenate the rest. -/
def to_camel_case (s : String) : String :=
  match splitUnd s.data [] with
  | [] => ⟨[]⟩
  | p :: ps => ⟨p ++ (ps.map (fun seg => titleGo seg false)).flatten⟩

/-! ### Regex helpers of `cartlis_governance.py` -/

/-- Does `s` match the anchored naming-convention regex of rule
CONSIST001 (lowercase words joined by single underscores)?  The boolean
argument records whether the current segment already has a letter. -/
def snakeMatchGo : List Char → Bool → Bool
  | [], seen => seen
  | c :: rest, seen =>
      if isAsciiLower c then snakeMatchGo rest true
      else if c = '_' then seen && snakeMatchGo rest false
      else false

/-- `re.match` against the CONSIST001 parameter-name pattern. -/
def snakeMatch (s : String) : Bool :=
  snakeMatchGo s.data false

/-- Is `c` an ASCII digit? -/
def isAsciiDigit (c : Char) : Bool :=
  48 ≤ c.toNat && c.toNat ≤ 57

/-- `re.match` against the VER001 path-versioning pattern: a slash, the
letter v, one or more digits, a slash, then anything. -/
def verMatch (s : String) : Bool :=
  match s.data with
  | '/' :: 'v' :: rest =>
      let ds := rest.takeWhile isAsciiDigit
      !ds.isEmpty &&
        (match rest.drop ds.length with
         | '/' :: _ => true
         | _ => false)
  | _ => false

/-- The opening-brace character. -/
def lbrace : Char := Char.ofNat 123

/-- The closing-brace character. -/
def rbrace : Char := Char.ofNat 125

/-- `re.findall` with the brace-delimited-name pattern of the PARAM001
fix: scanning left to right, each opening brace starts a capture that runs
to the nearest closing brace; an unclosed capture yields nothing. -/
def fbpGo : List Char → Option (List Char) → List String
  | [], _ => []
  | c :: rest, some acc =>
      if c = rbrace then (⟨acc.reverse⟩ : String) :: fbpGo rest none
      else fbpGo rest (some (c :: acc))
  | c :: rest, none =>
      if c = lbrace then fbpGo rest (some [])
      else fbpGo rest none

/-- All brace-delimited parameter names occurring in a path string. -/
def findBraceParams (s : String) : List String :=
  fbpGo s.data none

/-- Replace every occurrence of `http://` by `https://` in a character
list, left to right (Python `str.replace`). -/
def httpToHttps : List Char → List Char
  | [] => []
  | 'h' :: 't' :: 't' :: 'p' :: ':' :: '/' :: '/' :: rest =>
      'h' :: 't' :: 't' :: 'p' :: 's' :: ':' :: '/' :: '/' :: httpToHttps rest
  | c :: rest => c :: httpToHttps rest

/-! ### The text backfill adapter (`generate_ai_content` in `fixer.py`) -/

/-- `generate_ai_content`: the external chat-completion call and the
extraction `response.choices[0].message.content` are modelled by the
parameter `ai`; the function strips the content on success and, because
the whole body sits in a try/except over `Exception`, returns the fixed
fallback string on any failure. -/
def generate_ai_content (ai : String → Except PyErr String) (prompt : String) : String :=
  match ai prompt with
  | .ok content => pyStrip content
  | .error _ => "This is a fallback placeholder."

/-! ### The validator (`validate_spec` in `cartlis_governance.py`)

Every rule branch walks `api_spec.get("paths", dict()).items()` and, per
method, applies the rule predicate, appending violation dictionaries in
traversal order. -/

/-- Iterate the document's paths and methods, collecting the violations
produced per operation, in document order. -/
def forOps (doc : J) (f : String → String → J → Except PyErr (List J)) :
    Except PyErr (List J) := do
  let paths ← pyGetD doc "paths" (J.obj [])
  let pk ← pyItems paths
  let out ← pk.mapM (fun pkv => do
      let mk ← pyItems pkv.2
      let vs ← mk.mapM (fun mkv => f pkv.1 mkv.1 mkv.2)
      pure vs.flatten)
  pure out.flatten

/-- Build the standard violation dictionary carrying path and method:
keys id, description, fix, path, method, with the f-string
`rule description + " at " + METHOD + " " + path` as description. -/
def mkViolationPM (rule : J) (p m : String) : Except PyErr J := do
  let rid ← pyGet rule "id"
  let desc ← pyGet rule "description"
  let fixv ← pyGetD rule "fix" J.null
  pure (J.obj [("id", rid),
    ("description", J.str (jStr desc ++ " at " ++ (⟨m.data.map pyUpperChar⟩ : String) ++ " " ++ p)),
    ("fix", fixv), ("path", J.str p), ("method", J.str m)])

/-- SEC002: operation missing `security`, or whose first security
requirement lacks the key OAuth2.  The fallback `[dict()]` of the `.get`
is only used when the key is absent, so a present empty list reaches the
subscript `[0]`. -/
def valSEC002 (doc rule : J) : Except PyErr (List J) :=
  forOps doc (fun p m details => do
    let hs ← pyInS "security" details
    let fire ←
      if !hs then pure true
      else do
        let sec ← pyGetD details "security" (J.arr [J.obj []])
        let fst ← pyIndex0 sec
        let b ← pyInS "OAuth2" fst
        pure (!b)
    if fire then do
      let v ← mkViolationPM rule p m
      pure [v]
    else pure [])

/-- SEC004: operation missing `security` entirely. -/
def valSEC004 (doc rule : J) : Except PyErr (List J) :=
  forOps doc (fun p m details => do
    let hs ← pyInS "security" details
    if !hs then do
      let v ← mkViolationPM rule p m
      pure [v]
    else pure [])

/-- PERF001: a 200 response missing one of the three rate-limit headers. -/
def valPERF001 (doc rule : J) : Except PyErr (List J) :=
  forOps doc (fun p m details => do
    let hr ← pyInS "responses" details
    let go ←
      if hr then do
        let resp ← pyGet details "responses"
        pyInS "200" resp
      else pure false
    if go then do
      let resp ← pyGet details "responses"
      let r200 ← pyGetK resp (J.str "200")
      let headers ← pyGetD r200 "headers" (J.obj [])
      let h1 ← pyInS "X-RateLimit-Limit" headers
      let fire ←
        if !h1 then pure true
        else do
          let h2 ← pyInS "X-RateLimit-Remaining" headers
          if !h2 then pure true
          else do
            let h3 ← pyInS "X-RateLimit-Reset" headers
            pure (!h3)
      if fire then do
        let v ← mkViolationPM rule p m
        pure [v]
      else pure []
    else pure [])

/-- PERF002: a 200 response missing the Cache-Control header. -/
def valPERF002 (doc rule : J) : Except PyErr (List J) :=
  forOps doc (fun p m details => do
    let hr ← pyInS "responses" details
    let go ←
      if hr then do
        let resp ← pyGet details "responses"
        pyInS "200" resp
      else pure false
    if go then do
      let resp ← pyGet details "responses"
      let r200 ← pyGetK resp (J.str "200")
      let headers ← pyGetD r200 "headers" (J.obj [])
      let hc ← pyInS "Cache-Control" headers
      if !hc then do
        let v ← mkViolationPM rule p m
        pure [v]
      else pure []
    else pure [])

/-- CONSIST001: parameter names must match the snake-case pattern.  The
violation's description embeds the offending name rather than the rule
description. -/
def valCONSIST001 (doc rule : J) : Except PyErr (List J) :=
  forOps doc (fun p m details => do
    let params ← pyGetD details "parameters" (J.arr [])
    let elems ← pyIter params
    let vss ← elems.mapM (fun param => do
        let hn ← pyInS "name" param
        if hn then do
          let n ← pyGet param "name"
          match n with
          | .str s =>
              if !snakeMatch s then do
                let rid ← pyGet rule "id"
                let fixv ← pyGetD rule "fix" J.null
                pure [J.obj [("id", rid),
                  ("description", J.str ("Parameter \x27" ++ s ++
                    "\x27 does not follow naming convention at " ++
                    (⟨m.data.map pyUpperChar⟩ : String) ++ " " ++ p)),
                  ("fix", fixv), ("path", J.str p), ("method", J.str m)]]
              else pure []
          | _ => Except.error .typeError
        else pure [])
    pure vss.flatten)

/-- VER001: every path key must carry a version segment.  The violation
carries no method key. -/
def valVER001 (doc rule : J) : Except PyErr (List J) := do
  let paths ← pyGetD doc "paths" (J.obj [])
  let ks ← pyKeys paths
  let vss ← ks.mapM (fun p =>
      if !verMatch p then do
        let rid ← pyGet rule "id"
        let desc ← pyGet rule "description"
        let fixv ← pyGetD rule "fix" J.null
        pure [J.obj [("id", rid),
          ("description", J.str (jStr desc ++ " at path " ++ p)),
          ("fix", fixv), ("path", J.str p)]]
      else pure ([] : List J))
  pure vss.flatten

/-- DOC001: operation with an absent or whitespace-only description; a
non-string description reaches `.strip()` and raises AttributeError. -/
def valDOC001 (doc rule : J) : Except PyErr (List J) :=
  forOps doc (fun p m details => do
    let hd ← pyInS "description" details
    let fire ←
      if !hd then pure true
      else do
        let d ← pyGet details "description"
        match d with
        | .str s => pure (pyStrip s).isEmpty
        | _ => Except.error .attributeError
    if fire then do
      let v ← mkViolationPM rule p m
      pure [v]
    else pure [])

/-- PARAM001: every parameter with location `path` must carry a truthy
schema; the subscript `param["in"]` raises KeyError when absent. -/
def valPARAM001 (doc rule : J) : Except PyErr (List J) :=
  forOps doc (fun p m details => do
    let params ← pyGetD details "parameters" (J.arr [])
    let elems ← pyIter params
    let vss ← elems.mapM (fun param => do
        let pin ← pyGet param "in"
        if jEqStr pin "path" then do
          let sc ← pyGetD param "schema" J.null
          if !truthy sc then do
            let rid ← pyGet rule "id"
            let desc ← pyGet rule "description"
            let name ← pyGet param "name"
            let fixv ← pyGetD rule "fix" J.null
            pure [J.obj [("id", rid),
              ("description", J.str (jStr desc ++ " for parameter \x27" ++
                jStr name ++ "\x27 at " ++
                (⟨m.data.map pyUpperChar⟩ : String) ++ " " ++ p)),
              ("fix", fixv), ("path", J.str p), ("method", J.str m)]]
          else pure []
        else pure [])
    pure vss.flatten)

/-- RESP001: every non-null response must carry a `content` entry; null
responses are explicitly tolerated by this predicate. -/
def valRESP001 (doc rule : J) : Except PyErr (List J) :=
  forOps doc (fun p m details => do
    let responses ← pyGetD details "responses" (J.obj [])
    let kvs ← pyItems responses
    let vss ← kvs.mapM (fun kv =>
        if isNull kv.2 then pure ([] : List J)
        else do
          let hc ← pyInS "content" kv.2
          if !hc then do
            let rid ← pyGet rule "id"
            let desc ← pyGet rule "description"
            let fixv ← pyGetD rule "fix" J.null
            pure [J.obj [("id", rid),
              ("description", J.str (jStr desc ++ " for response \x27" ++
                kv.1 ++ "\x27 at " ++
                (⟨m.data.map pyUpperChar⟩ : String) ++ " " ++ p)),
              ("fix", fixv), ("path", J.str p), ("method", J.str m)]]
          else pure [])
    pure vss.flatten)

/-- The rule dispatch of `validate_spec`: for every rule of the catalog,
in order, run the branch selected by `rule["id"]` and concatenate the
violations. -/
def validateRules (api_spec rules : J) : Except PyErr (List J) := do
  let rlist ← pyGet rules "rules"
  let rs ← pyIter rlist
  let vss ← rs.mapM (fun rule => do
      let rid ← pyGet rule "id"
      if jEqStr rid "SEC002" then valSEC002 api_spec rule
      else if jEqStr rid "SEC004" then valSEC004 api_spec rule
      else if jEqStr rid "PERF001" then valPERF001 api_spec rule
      else if jEqStr rid "PERF002" then valPERF002 api_spec rule
      else if jEqStr rid "CONSIST001" then valCONSIST001 api_spec rule
      else if jEqStr rid "VER001" then valVER001 api_spec rule
      else if jEqStr rid "DOC001" then valDOC001 api_spec rule
      else if jEqStr rid "PARAM001" then valPARAM001 api_spec rule
      else if jEqStr rid "RESP001" then valRESP001 api_spec rule
      else pure [])
  pure vss.flatten

/-- `validate_spec(api_spec, rules)`: the violation list, paired with the
document state after the call.  The source contains no statement that
writes into `api_spec`, so the translation returns the input document
itself; the pairing makes the non-mutation claim statable. -/
def validate_spec (api_spec rules : J) : Except PyErr (List J × J) :=
  match validateRules api_spec rules with
  | .ok violations => .ok (violations, api_spec)
  | .error e => .error e

/-! ### The mutation engine (`fix_spec` in `fixer.py`)

`fix_spec` iterates the violation list; a violation whose `method` or
`path` entry is falsy is skipped, and otherwise one full pass of the body
runs and ends in `return api_spec` (the return statement sits inside the
loop).  The body's statements are translated in source order below.
In-place mutations of the shared document become functional write-back
along the access path; a container obtained from a `.get` default is a
fresh object in Python, so such results are only written back when the
key is actually present. -/

/-- `path in api_spec["paths"] and method in api_spec["paths"][path]`,
the guard shared by most handlers. -/
def opPresent (doc path method : J) : Except PyErr Bool := do
  let paths ← pyGet doc "paths"
  let b ← pyInJ path paths
  if b then do
    let po ← pyGetK paths path
    pyInJ method po
  else pure false

/-- Read `api_spec["paths"][path][method]`. -/
def getOp (doc path method : J) : Except PyErr J := do
  let paths ← pyGet doc "paths"
  let po ← pyGetK paths path
  pyGetK po method

/-- Write an operation object back to `api_spec["paths"][path][method]`,
modelling the in-place mutation of the shared sub-dictionaries. -/
def setOp (doc path method op : J) : Except PyErr J := do
  let paths ← pyGet doc "paths"
  let po ← pyGetK paths path
  let po' ← pySetK po method op
  let paths' ← pySetK paths path po'
  pySet doc "paths" paths'

/-- The OAuth2 scope list assigned by the SEC002 fix. -/
def sec002Snippet : J :=
  J.arr [J.obj [("OAuth2", J.arr [J.str "write", J.str "read"])]]

/-- SEC002 fix: unconditionally set the operation's security to the fixed
two-scope OAuth2 requirement. -/
def fixSEC002 (doc path method : J) : Except PyErr J := do
  let b ← opPresent doc path method
  if b then do
    let op ← getOp doc path method
    let op' ← pySet op "security" sec002Snippet
    setOp doc path method op'
  else pure doc

/-- SEC003 fix: rewrite every insecure server URL to https.  The element
mutations are visible in the document only when the `servers` key is
present (the `.get` default is a fresh list). -/
def fixSEC003 (doc : J) : Except PyErr J := do
  let servers ← pyGetD doc "servers" (J.arr [])
  let elems ← pyIter servers
  let elems' ← elems.mapM (fun server => do
      let url ← pyGet server "url"
      let b ← pyInS "http://" url
      if b then
        match url with
        | .str u => pySet server "url" (J.str ⟨httpToHttps u.data⟩)
        | _ => Except.error .attributeError
      else pure server)
  match servers, doc with
  | .arr _, .obj dkvs =>
      pure (if hasK dkvs "servers" then J.obj (setK dkvs "servers" (J.arr elems'))
            else doc)
  | _, _ => pure doc

/-- The default OAuth2 implicit-flow requirement of the SEC004 fix. -/
def sec004Snippet : J :=
  J.arr [J.obj [("OAuth2", J.obj [("flows", J.obj [("implicit", J.obj [
    ("authorizationUrl", J.str "https://example.com/oauth/authorize"),
    ("scopes", J.obj [("read", J.str "Grants read access"),
                      ("write", J.str "Grants write access")])])])])]]

/-- SEC004 fix: set the default security scheme when none is present. -/
def fixSEC004 (doc path method : J) : Except PyErr J := do
  let b ← opPresent doc path method
  if b then do
    let op ← getOp doc path method
    let hs ← pyInS "security" op
    if !hs then do
      let op' ← pySet op "security" sec004Snippet
      setOp doc path method op'
    else pure doc
  else pure doc

/-- The integer-typed header schema used by the rate-limit fixes. -/
def intSchema : J := J.obj [("schema", J.obj [("type", J.str "integer")])]

/-- The Cache-Control header schema. -/
def ccHeader : J := J.obj [("schema", J.obj [("type", J.str "string"),
  ("description", J.str "Caching directive for improving performance")])]

/-- Write a mutated `responses` container back into the operation when,
and only when, the operation actually holds a `responses` key (otherwise
the container came from the `.get` default and the mutation is lost). -/
def writeRespBack (doc path method op resp : J) : Except PyErr J :=
  match op with
  | .obj okvs =>
      if hasK okvs "responses" then
        setOp doc path method (J.obj (setK okvs "responses" resp))
      else pure doc
  | _ => pure doc

/-- PERF001 fix: merge the three rate-limit headers into the 200
response's header map, creating the map if absent. -/
def fixPERF001 (doc path method : J) : Except PyErr J := do
  let b ← opPresent doc path method
  if b then do
    let op ← getOp doc path method
    let responses ← pyGetD op "responses" (J.obj [])
    let h200 ← pyInS "200" responses
    if h200 then do
      let r200 ← pyGetK responses (J.str "200")
      let hh ← pyInS "headers" r200
      let r200 ← if !hh then pySet r200 "headers" (J.obj []) else pure r200
      let hdrs ← pyGet r200 "headers"
      let hdrs ← pyUpdate hdrs [("X-RateLimit-Limit", intSchema),
        ("X-RateLimit-Remaining", intSchema), ("X-RateLimit-Reset", intSchema)]
      let r200 ← pySet r200 "headers" hdrs
      let responses' ← pySetK responses (J.str "200") r200
      writeRespBack doc path method op responses'
    else pure doc
  else pure doc

/-- PERF002 fix: set the Cache-Control header on the 200 response. -/
def fixPERF002 (doc path method : J) : Except PyErr J := do
  let b ← opPresent doc path method
  if b then do
    let op ← getOp doc path method
    let responses ← pyGetD op "responses" (J.obj [])
    let h200 ← pyInS "200" responses
    if h200 then do
      let r200 ← pyGetK responses (J.str "200")
      let hh ← pyInS "headers" r200
      let r200 ← if !hh then pySet r200 "headers" (J.obj []) else pure r200
      let hdrs ← pyGet r200 "headers"
      let hdrs ← pySet hdrs "Cache-Control" ccHeader
      let r200 ← pySet r200 "headers" hdrs
      let responses' ← pySetK responses (J.str "200") r200
      writeRespBack doc path method op responses'
    else pure doc
  else pure doc

/-- CONSIST001 fix: rewrite every named parameter through the snake-case
normalizer; `re.sub` on a non-string name raises TypeError. -/
def fixCONSIST001 (doc path method : J) : Except PyErr J := do
  let b ← opPresent doc path method
  if b then do
    let op ← getOp doc path method
    let params ← pyGetD op "parameters" (J.arr [])
    let elems ← pyIter params
    let elems' ← elems.mapM (fun param => do
        let hn ← pyInS "name" param
        if hn then do
          let n ← pyGet param "name"
          match n with
          | .str s => pySet param "name" (J.str (to_snake_case s))
          | _ => Except.error .typeError
        else pure param)
    match params, op with
    | .arr _, .obj okvs =>
        if hasK okvs "parameters" then
          setOp doc path method (J.obj (setK okvs "parameters" (J.arr elems')))
        else pure doc
    | _, _ => pure doc
  else pure doc

/-- CONSIST002 fix: rebuild the named schema's properties under
camel-cased keys, preserving values. -/
def fixCONSIST002 (doc v : J) : Except PyErr J := do
  let vschema ← pyGet v "schema"
  let comps ← pyGet doc "components"
  let schemas ← pyGet comps "schemas"
  let b ← pyInJ vschema schemas
  if b then do
    let schema ← pyGetK schemas vschema
    let props ← pyGetD schema "properties" (J.obj [])
    let kvs ← pyItems props
    let newProps := kvs.foldl (fun acc kv => setK acc (to_camel_case kv.1) kv.2) []
    let schema' ← pySet schema "properties" (J.obj newProps)
    let schemas' ← pySetK schemas vschema schema'
    let comps' ← pySet comps "schemas" schemas'
    pySet doc "components" comps'
  else pure doc

/-- DEP001 fix: mark every method of the target path deprecated and
append the migration note to each existing description.  The loop
variable of the source shadows the surrounding `method`, so the final
loop key is returned as the new value of that local. -/
def fixDEP001 (doc path curM : J) : Except PyErr (J × J) := do
  let paths ← pyGet doc "paths"
  let b ← pyInJ path paths
  if b then do
    let po ← pyGetK paths path
    let keys ← pyIter po
    keys.foldlM (fun acc mk => do
        let doc := acc.1
        let paths ← pyGet doc "paths"
        let po ← pyGetK paths path
        let op ← pyGetK po mk
        let op ← pySet op "deprecated" (J.bool true)
        let hd ← pyInS "description" op
        let op ←
          if hd then do
            let d ← pyGet op "description"
            match d with
            | .str s => pySet op "description" (J.str (s ++ "\nUse the following alternative: /v2/transactions."))
            | _ => Except.error .typeError
          else pure op
        let po' ← pySetK po mk op
        let paths' ← pySetK paths path po'
        let doc' ← pySet doc "paths" paths'
        pure (doc', mk)) (doc, curM)
  else pure (doc, curM)

/-- VER001 fix, first occurrence (dispatch chain): pop the path entry and
re-insert it under the key prefixed with `/v1`. -/
def fixVER001a (doc path : J) : Except PyErr J := do
  let paths ← pyGet doc "paths"
  let b ← pyInJ path paths
  if b then do
    let np ←
      match path with
      | .str p => pure ("/v1" ++ p)
      | _ => Except.error .typeError
    let popped ← pyPopK paths path
    let paths' ← pySetK popped.2 (J.str np) popped.1
    pySet doc "paths" paths'
  else pure doc

/-- DOC001 fix: backfill a missing or falsy description from the text
adapter, with the prompt built from method and path. -/
def fixDOC001 (ai : String → Except PyErr String) (doc path method : J) :
    Except PyErr J := do
  let b ← opPresent doc path method
  if b then do
    let op ← getOp doc path method
    let d ← pyGetD op "description" J.null
    if !truthy d then do
      let mS ← pyUpperJ method
      let prompt := "Generate a description for " ++ mS ++ " " ++ jStr path
      let op' ← pySet op "description" (J.str (generate_ai_content ai prompt))
      setOp doc path method op'
    else pure doc
  else pure doc

/-- OP_ID001 fix: ask the adapter for an operation id; only a falsy
result falls back to the method-derived placeholder. -/
def fixOPID001 (ai : String → Except PyErr String) (doc path method : J) :
    Except PyErr J := do
  let b ← opPresent doc path method
  if b then do
    let mS ← pyUpperJ method
    let prompt := "Generate a unique operation ID for an API operation handling "
      ++ mS ++ " request at " ++ jStr path ++ "."
    let aiId := generate_ai_content ai prompt
    if !aiId.isEmpty then do
      let op ← getOp doc path method
      let op' ← pySet op "operationId" (J.str aiId)
      setOp doc path method op'
    else do
      let op ← getOp doc path method
      let op' ← pySet op "operationId"
        (J.str ("operationId_placeholder_" ++ jStr method))
      setOp doc path method op'
  else pure doc

/-- The parameter definition appended by the PARAM001 fix. -/
def paramDef (p : String) : J :=
  J.obj [("name", J.str p), ("in", J.str "path"), ("required", J.bool true),
    ("schema", J.obj [("type", J.str "string")]),
    ("description", J.str ("The " ++ p ++ " path parameter"))]

/-- PARAM001 fix: declare every brace-delimited path parameter that is
not already a `path`-location parameter of the operation. -/
def fixPARAM001 (doc path method : J) : Except PyErr J := do
  let b ← opPresent doc path method
  if b then do
    let op ← getOp doc path method
    let params ← pyGetD op "parameters" (J.arr [])
    let elems ← pyIter params
    let names ← elems.foldlM (fun acc param => do
        let pin ← pyGet param "in"
        if jEqStr pin "path" then do
          let n ← pyGet param "name"
          pure (acc ++ [n])
        else pure acc) ([] : List J)
    let missing ←
      match path with
      | .str p => pure (findBraceParams p)
      | _ => Except.error .typeError
    let added := (missing.filter
      (fun p => !names.any (fun n => beqJ n (J.str p)))).map paramDef
    if added.isEmpty then pure doc
    else
      match params with
      | .arr xs => do
          let op' ← pySet op "parameters" (J.arr (xs ++ added))
          setOp doc path method op'
      | _ => Except.error .attributeError
  else pure doc

/-- PARAM_DESC001 fix: backfill a description for every parameter that
lacks one; the prompt embeds the parameter name, method and path. -/
def fixPARAMDESC (ai : String → Except PyErr String) (doc path method : J) :
    Except PyErr J := do
  let b ← opPresent doc path method
  if b then do
    let op ← getOp doc path method
    let params ← pyGetD op "parameters" (J.arr [])
    let elems ← pyIter params
    let elems' ← elems.mapM (fun param => do
        let d ← pyGetD param "description" J.null
        if !truthy d then do
          let n ← pyGet param "name"
          let mS ← pyUpperJ method
          let prompt := "Generate a description for the " ++ jStr n ++
            " parameter in the " ++ mS ++ " operation at " ++ jStr path ++ "."
          pySet param "description" (J.str (generate_ai_content ai prompt))
        else pure param)
    match params, op with
    | .arr _, .obj okvs =>
        if hasK okvs "parameters" then
          setOp doc path method (J.obj (setK okvs "parameters" (J.arr elems')))
        else pure doc
    | _, _ => pure doc
  else pure doc

/-- The default JSON content inserted by the RESP001 fix. -/
def defaultContent : J :=
  J.obj [("application/json", J.obj [("schema",
    J.obj [("$ref", J.str "#/components/schemas/Pet")])])]

/-- One response entry under the RESP001 fix: replace a null entry by an
empty object, ensure `content`, then force the header quadruple. -/
def resp001Entry (r : J) : Except PyErr J := do
  let r := if isNull r then J.obj [] else r
  let hc ← pyInS "content" r
  let r ← if !hc then pySet r "content" defaultContent else pure r
  let hh ← pyInS "headers" r
  let r ← if !hh then pySet r "headers" (J.obj []) else pure r
  let hdrs ← pyGet r "headers"
  let hdrs ← pySet hdrs "X-RateLimit-Limit" intSchema
  let hdrs ← pySet hdrs "X-RateLimit-Remaining" intSchema
  let hdrs ← pySet hdrs "X-RateLimit-Reset" intSchema
  let hdrs ← pySet hdrs "Cache-Control" ccHeader
  pySet r "headers" hdrs

/-- RESP001 fix: apply `resp001Entry` to every response of a truthy
responses container. -/
def fixRESP001 (doc path method : J) : Except PyErr J := do
  let b ← opPresent doc path method
  if b then do
    let op ← getOp doc path method
    let responses ← pyGetD op "responses" (J.obj [])
    if truthy responses then do
      let kvs ← pyItems responses
      let kvs' ← kvs.mapM (fun kv => do
          let r' ← resp001Entry kv.2
          pure (kv.1, r'))
      writeRespBack doc path method op (J.obj kvs')
    else pure doc
  else pure doc

/-- SCHEMA_DESC001 fix: backfill a description for every property of the
named schema that lacks one. -/
def fixSchemaDesc (ai : String → Except PyErr String) (doc v : J) :
    Except PyErr J := do
  let vschema ← pyGet v "schema"
  let comps ← pyGet doc "components"
  let schemas ← pyGet comps "schemas"
  let b ← pyInJ vschema schemas
  if b then do
    let schema ← pyGetK schemas vschema
    let props ← pyGetD schema "properties" (J.obj [])
    let kvs ← pyItems props
    let kvs' ← kvs.mapM (fun kv => do
        let hd ← pyInS "description" kv.2
        if !hd then do
          let prompt := "Generate a description for the \x27" ++ kv.1 ++
            "\x27 field in the " ++ jStr vschema ++ " schema."
          let pv' ← pySet kv.2 "description" (J.str (generate_ai_content ai prompt))
          pure (kv.1, pv')
        else pure (kv.1, kv.2))
    match props, schema with
    | .obj _, .obj skvs =>
        if hasK skvs "properties" then do
          let schema' := J.obj (setK skvs "properties" (J.obj kvs'))
          let schemas' ← pySetK schemas vschema schema'
          let comps' ← pySet comps "schemas" schemas'
          pySet doc "components" comps'
        else pure doc
    | _, _ => pure doc
  else pure doc

/-- The unguarded requestBody step of the body (it subscripts
`api_spec["paths"][path][method]` directly, so a path or method that is
no longer present raises KeyError), followed by its elif branches for
OP_SUM001 and SCHEMA_DESC001.  `path` and `curMethod` are the local
variables at this point of the body (the DEP001 loop may have rebound the
method). -/
def fixRequestBodyChain (ai : String → Except PyErr String)
    (doc v vid path curMethod : J) : Except PyErr J := do
  let op ← getOp doc path curMethod
  let hrb ← pyInS "requestBody" op
  if hrb then do
    let rb ← pyGet op "requestBody"
    let d ← pyGetD rb "description" J.null
    if isNull d then do
      let rb' ← pySet rb "description" (J.str "Description not provided.")
      let op' ← pySet op "requestBody" rb'
      setOp doc path curMethod op'
    else pure doc
  else if jEqStr vid "OP_SUM001" then do
    let b ← opPresent doc path curMethod
    if b then do
      let op ← getOp doc path curMethod
      let s ← pyGetD op "summary" J.null
      if !truthy s then do
        let mS ← pyUpperJ curMethod
        let prompt := "Generate a concise summary for the " ++ mS ++
          " operation at " ++ jStr path ++ "."
        let op' ← pySet op "summary" (J.str (generate_ai_content ai prompt))
        setOp doc path curMethod op'
      else pure doc
    else pure doc
  else if jEqStr vid "SCHEMA_DESC001" then
    fixSchemaDesc ai doc v
  else pure doc

/-- One operation under the null-response sanitation sweep: replace every
explicitly null response entry by the default response object.  The
mutation is visible only when the operation holds a `responses` key. -/
def sanitizeOp (details : J) : Except PyErr J := do
  let responses ← pyGetD details "responses" (J.obj [])
  let kvs ← pyItems responses
  let kvs' := kvs.map (fun kv =>
    if isNull kv.2 then (kv.1, J.obj [("description", J.str "Default response")])
    else kv)
  match details with
  | .obj dkvs =>
      pure (if hasK dkvs "responses" then J.obj (setK dkvs "responses" (J.obj kvs'))
            else details)
  | _ => pure details

/-- The null-response sanitation sweep over the whole document
(the loop beginning `for path, methods in api_spec.get("paths", ...)`). -/
def sanitizeDoc (doc : J) : Except PyErr J := do
  let paths ← pyGetD doc "paths" (J.obj [])
  let pk ← pyItems paths
  let pk' ← pk.mapM (fun pkv => do
      let mk ← pyItems pkv.2
      let mk' ← mk.mapM (fun mkv => do
          let d' ← sanitizeOp mkv.2
          pure (mkv.1, d'))
      pure (pkv.1, J.obj mk'))
  match doc with
  | .obj dkvs =>
      pure (if hasK dkvs "paths" then J.obj (setK dkvs "paths" (J.obj pk'))
            else doc)
  | _ => pure doc

/-- The rename-propagation loop of the second VER001 block: for every
violation in the list whose path equals the current path of the outer
violation (the list element at index `i`, which the loop itself may
rewrite part-way through), set its path to the new key. -/
def ver001PropGo (np : String) (i : Nat) :
    Nat → Nat → List J → Except PyErr (List J)
  | 0, _, all => pure all
  | fuel + 1, jj, all => do
      let vv := all.getD jj J.null
      let p ← pyGet vv "path"
      let cur := all.getD i J.null
      let vpCur ← pyGet cur "path"
      let all ←
        if beqJ p vpCur then do
          let vv' ← pySet vv "path" (J.str np)
          pure (all.set jj vv')
        else pure all
      ver001PropGo np i fuel (jj + 1) all

/-- VER001 fix, second occurrence: repeat the rename and then propagate
the new path into the pending violation list. -/
def fixVER001b (doc vid v : J) (all : List J) (i : Nat) :
    Except PyErr (J × List J) := do
  if jEqStr vid "VER001" then do
    let vp ← pyGet v "path"
    let paths ← pyGet doc "paths"
    let b ← pyInJ vp paths
    if b then do
      let np ←
        match vp with
        | .str p => pure ("/v1" ++ p)
        | _ => Except.error .typeError
      let popped ← pyPopK paths vp
      let paths' ← pySetK popped.2 (J.str np) popped.1
      let doc' ← pySet doc "paths" paths'
      let all' ← ver001PropGo np i all.length 0 all
      pure (doc', all')
    else pure (doc, all)
  else pure (doc, all)

/-- One step of the re-check loop at the end of the body: skip
violations with falsy path or method, and for RESP001 violations whose
target still exists, replace null responses by the default object. -/
def innerLoopStep (doc vv : J) : Except PyErr J := do
  let p ← pyGetD vv "path" J.null
  let m ← pyGetD vv "method" J.null
  if !truthy p then pure doc
  else if !truthy m then pure doc
  else do
    let paths ← pyGet doc "paths"
    let b1 ← pyInJ p paths
    let b ←
      if b1 then do
        let po ← pyGetK paths p
        pyInJ m po
      else pure false
    if b then do
      let vid2 ← pyGet vv "id"
      if jEqStr vid2 "RESP001" then do
        let po ← pyGetK paths p
        let op ← pyGetK po m
        let responses ← pyGetD op "responses" (J.obj [])
        let kvs ← pyItems responses
        let kvs' := kvs.map (fun kv =>
          if isNull kv.2 then (kv.1, J.obj [("description", J.str "Default response")])
          else kv)
        match op with
        | .obj okvs =>
            if hasK okvs "responses" then do
              let po' ← pySetK po m (J.obj (setK okvs "responses" (J.obj kvs')))
              let paths' ← pySetK paths p po'
              pySet doc "paths" paths'
            else pure doc
        | _ => pure doc
      else pure doc
    else pure doc

/-- The re-check loop over the whole violation list. -/
def innerLoop (doc : J) : List J → Except PyErr J
  | [] => pure doc
  | vv :: rest => do
      let doc' ← innerLoopStep doc vv
      innerLoop doc' rest

/-- One full pass of the body of the violation loop of `fix_spec`, in
source order: the dispatch chain keyed on the rule id, the unguarded
requestBody step, the sanitation sweep, the second VER001 block with
rename propagation, and the re-check loop.  Returns the document and
violation list after the pass. -/
def fixBody (ai : String → Except PyErr String) (doc0 : J) (all : List J)
    (i : Nat) (v path method : J) : Except PyErr (J × List J) := do
  let vid ← pyGet v "id"
  let _ ← pyUpperJ method
  let dm ←
    if jEqStr vid "SEC002" then do
      let d ← fixSEC002 doc0 path method
      pure (d, method)
    else if jEqStr vid "SEC003" then do
      let d ← fixSEC003 doc0
      pure (d, method)
    else if jEqStr vid "SEC004" then do
      let d ← fixSEC004 doc0 path method
      pure (d, method)
    else if jEqStr vid "PERF001" then do
      let d ← fixPERF001 doc0 path method
      pure (d, method)
    else if jEqStr vid "PERF002" then do
      let d ← fixPERF002 doc0 path method
      pure (d, method)
    else if jEqStr vid "CONSIST001" then do
      let d ← fixCONSIST001 doc0 path method
      pure (d, method)
    else if jEqStr vid "CONSIST002" then do
      let d ← fixCONSIST002 doc0 v
      pure (d, method)
    else if jEqStr vid "DEP001" then fixDEP001 doc0 path method
    else if jEqStr vid "VER001" then do
      let d ← fixVER001a doc0 path
      pure (d, method)
    else pure (doc0, method)
  let doc := dm.1
  let curMethod := dm.2
  let doc ←
    if jEqStr vid "DOC001" then fixDOC001 ai doc path method
    else if jEqStr vid "OP_ID001" then fixOPID001 ai doc path method
    else pure doc
  let doc ←
    if jEqStr vid "PARAM001" || jEqStr vid "UnresolvableParameterError" then
      fixPARAM001 doc path method
    else if jEqStr vid "PARAM_DESC001" then fixPARAMDESC ai doc path method
    else pure doc
  let doc ← if jEqStr vid "RESP001" then fixRESP001 doc path method else pure doc
  let doc ← fixRequestBodyChain ai doc v vid path curMethod
  let doc ← sanitizeDoc doc
  let da ← fixVER001b doc vid v all i
  let doc ← innerLoop da.1 da.2
  pure (doc, da.2)

/-- The violation loop of `fix_spec`: a violation whose `.get("method")`
or `.get("path")` is falsy is skipped with a `continue`; otherwise the
body runs once and the loop ends in `return api_spec`.  When the loop
finishes without a processed violation the function falls off its end
and returns None. -/
def fixLoop (ai : String → Except PyErr String) (doc : J) (all : List J) :
    List J → Nat → Except PyErr (J × List J × Option Unit)
  | [], _ => pure (doc, all, none)
  | v :: rest, i => do
      let path ← pyGetD v "path" J.null
      let method ← pyGetD v "method" J.null
      if !truthy method then fixLoop ai doc all rest (i + 1)
      else if !truthy path then fixLoop ai doc all rest (i + 1)
      else do
        let da ← fixBody ai doc all i v path method
        pure (da.1, da.2, some ())

/-- `fix_spec(api_spec, violations)`: the final document state, the final
violation-list state, and the Python return value (`some ()` when
`return api_spec` was reached, `none` when the function fell off its end
and returned None). -/
def fix_spec (ai : String → Except PyErr String) (api_spec : J)
    (violations : List J) : Except PyErr (J × List J × Option Unit) :=
  fixLoop ai api_spec violations violations 0

/-! ### Observers used to state properties -/

/-- Does the document's `paths` dictionary contain the key `p`? -/
def hasPath (doc : J) (p : String) : Bool :=
  match doc with
  | .obj kvs =>
      (match lookupK kvs "paths" with
       | some (.obj pk) => hasK pk p
       | _ => false)
  | _ => false

/-- The field `fld` of the operation at `paths[p][m]`, when present. -/
def opFieldLookup (doc : J) (p m fld : String) : Option J :=
  match doc with
  | .obj kvs =>
      (match lookupK kvs "paths" with
       | some (.obj pk) =>
           (match lookupK pk p with
            | some (.obj mo) =>
                (match lookupK mo m with
                 | some (.obj op) => lookupK op fld
                 | _ => none)
            | _ => none)
       | _ => none)
  | _ => none

/-- The `url` entry of the first server of the document, when present. -/
def firstServerUrl (doc : J) : Option J :=
  match doc with
  | .obj kvs =>
      (match lookupK kvs "servers" with
       | some (.arr (.obj s :: _)) => lookupK s "url"
       | _ => none)
  | _ => none

/-! ### Lemmas about the snake-case normalizer -/

/-- Lowercasing never produces an ASCII uppercase letter. -/
theorem pyLowerChar_not_upper (c : Char) : isAsciiUpper (pyLowerChar c) = false := by
  unfold pyLowerChar
  split
  next h =>
    show (decide (65 ≤ c.toNat + 32) && decide (c.toNat + 32 ≤ 90)) = false
    have h90 : ¬ (c.toNat + 32 ≤ 90) := by omega
    simp [h90]
  next h =>
    show (decide (65 ≤ c.toNat) && decide (c.toNat ≤ 90)) = false
    by_cases h65 : 65 ≤ c.toNat
    · have h90 : ¬ (c.toNat ≤ 90) := fun hb => h ⟨h65, hb⟩
      simp [h90]
    · simp [h65]

/-- Lowercasing fixes characters that are not ASCII uppercase. -/
theorem pyLowerChar_fix (c : Char) (h : isAsciiUpper c = false) :
    pyLowerChar c = c := by
  unfold pyLowerChar
  rw [dif_neg]
  intro hc
  unfold isAsciiUpper at h
  simp [hc.1, hc.2] at h

/-- Lowercasing is idempotent. -/
theorem pyLowerChar_idem (c : Char) :
    pyLowerChar (pyLowerChar c) = pyLowerChar c :=
  pyLowerChar_fix _ (pyLowerChar_not_upper c)

/-- The insertion pass is the identity on uppercase-free inputs. -/
theorem snakeIns_of_no_upper (l : List Char)
    (h : ∀ c ∈ l, isAsciiUpper c = false) : snakeIns l = l := by
  induction l with
  | nil => rfl
  | cons c cs ih =>
      unfold snakeIns
      rw [h c (List.mem_cons_self c cs),
        ih (fun d hd => h d (List.mem_cons_of_mem c hd))]
      rfl

/-- Mapping the lowercase conversion twice equals mapping it once. -/
theorem map_pyLowerChar_idem (l : List Char) :
    (l.map pyLowerChar).map pyLowerChar = l.map pyLowerChar := by
  induction l with
  | nil => rfl
  | cons c cs ih => simp [pyLowerChar_idem, ih]

/-! ### Concrete documents, rules and violations used in the theorems -/

/-- An adapter whose underlying completion call always fails. -/
def aiStub : String → Except PyErr String := fun _ => Except.error PyErr.typeError

/-- A document with the single unversioned path `/transactions`. -/
def doc1 : J :=
  J.obj [("paths", J.obj [("/transactions", J.obj [("get", J.obj [])])])]

/-- A rule catalog containing only the VER001 rule. -/
def rulesVER : J :=
  J.obj [("rules", J.arr [J.obj [("id", J.str "VER001"), ("description", J.str "d")]])]

/-- The violation the validator emits for `doc1` under VER001: it carries
a path but, by construction of the VER001 branch, no method key. -/
def vVER1 : J :=
  J.obj [("id", J.str "VER001"),
    ("description", J.str "d at path /transactions"),
    ("fix", J.null), ("path", J.str "/transactions")]

/-- A document with one operation and one insecure server URL. -/
def docC2 : J :=
  J.obj [("servers", J.arr [J.obj [("url", J.str "http://api.example.com")]]),
    ("paths", J.obj [("/a", J.obj [("get", J.obj [])])])]

/-- A SEC002 violation addressing `/a`. -/
def v1C2 : J :=
  J.obj [("id", J.str "SEC002"), ("path", J.str "/a"), ("method", J.str "get")]

/-- A SEC003 violation addressing `/a`, queued second. -/
def v2C2 : J :=
  J.obj [("id", J.str "SEC003"), ("path", J.str "/a"), ("method", J.str "get")]

/-- The state of `docC2` after `fix_spec`: security added by the first
violation's handler, server URL untouched because the second violation's
handler never ran. -/
def docC2r : J :=
  J.obj [("servers", J.arr [J.obj [("url", J.str "http://api.example.com")]]),
    ("paths", J.obj [("/a", J.obj [("get", J.obj [("security", sec002Snippet)])])])]

/-- A document whose paths do not include `/gone`. -/
def docC3 : J := J.obj [("paths", J.obj [("/a", J.obj [("get", J.obj [])])])]

/-- A violation whose path is absent from the document. -/
def vGone : J :=
  J.obj [("id", J.str "SEC002"), ("path", J.str "/gone"), ("method", J.str "get")]

/-- A document whose 200 response is explicitly null. -/
def docC5 : J :=
  J.obj [("paths", J.obj [("/a", J.obj [("get",
    J.obj [("responses", J.obj [("200", J.null)])])])])]

/-- A PERF001 violation addressing the operation with the null response. -/
def vPerf : J :=
  J.obj [("id", J.str "PERF001"), ("path", J.str "/a"), ("method", J.str "get")]

/-- `docC5` after one null-response sanitation sweep. -/
def docC5s : J :=
  J.obj [("paths", J.obj [("/a", J.obj [("get",
    J.obj [("responses", J.obj [("200",
      J.obj [("description", J.str "Default response")])])])])])]

/-- A document with one operation carrying an explicitly empty security
list. -/
def docSec : J :=
  J.obj [("paths", J.obj [("/a", J.obj [("get",
    J.obj [("security", J.arr [])])])])]

/-- A rule catalog containing only the SEC002 rule. -/
def rulesSEC002 : J :=
  J.obj [("rules", J.arr [J.obj [("id", J.str "SEC002"), ("description", J.str "d")]])]

/-- A minimal document with one bare operation. -/
def dW : J := J.obj [("paths", J.obj [("/a", J.obj [("get", J.obj [])])])]

/-- A rule catalog containing only the SEC004 rule. -/
def rW : J :=
  J.obj [("rules", J.arr [J.obj [("id", J.str "SEC004"), ("description", J.str "d")]])]

/-- The violation the validator emits for `dW` under SEC004. -/
def vW : J :=
  J.obj [("id", J.str "SEC004"), ("description", J.str "d at GET /a"),
    ("fix", J.null), ("path", J.str "/a"), ("method", J.str "get")]

/-- A document with one bare operation, target of the OP_ID001 fix. -/
def docC8 : J := J.obj [("paths", J.obj [("/a", J.obj [("get", J.obj [])])])]

/-- An OP_ID001 violation addressing `/a`. -/
def vC8 : J :=
  J.obj [("id", J.str "OP_ID001"), ("path", J.str "/a"), ("method", J.str "get")]

/-- `docC8` after the OP_ID001 fix under a failing adapter: the
operationId holds the adapter's generic fallback text. -/
def docC8r : J :=
  J.obj [("paths", J.obj [("/a", J.obj [("get",
    J.obj [("operationId", J.str "This is a fallback placeholder.")])])])]

/-! ### Claim theorems -/

/-- C1.  The claim says that after `Fix` on a Validate-produced violation
list containing a VER001 violation for `/transactions`, that key is gone
and `/v1/transactions` holds the original operations.  In the code the
violation loop skips every violation whose `method` entry is falsy, and
the validator's VER001 branch emits violations without a method key, so
the VER001 fix never runs: `Validate` emits exactly `vVER1`, `fix_spec`
returns None with the document unchanged, `/transactions` is still
present and `/v1/transactions` is not. -/
theorem ver001_fix_never_runs_on_validator_output :
    validate_spec doc1 rulesVER = .ok ([vVER1], doc1) ∧
    fix_spec aiStub doc1 [vVER1] = .ok (doc1, [vVER1], none) ∧
    hasPath doc1 "/transactions" = true ∧
    hasPath doc1 "/v1/transactions" = false :=
  ⟨rfl, rfl, rfl, rfl⟩

/-- C2.  The claim says every violation's fix handler is invoked.  The
`return api_spec` statement sits inside the violation loop, so the run
ends after the first processed violation: with a SEC002 violation queued
before a SEC003 violation, the server URL keeps its insecure scheme,
which the SEC003 handler would have rewritten. -/
theorem fix_returns_after_first_violation :
    fix_spec aiStub docC2 [v1C2, v2C2] = .ok (docC2r, [v1C2, v2C2], some ()) ∧
    firstServerUrl docC2r = some (J.str "http://api.example.com") :=
  ⟨rfl, rfl⟩

/-- C3.  The claim says a violation whose path and method are no longer
in the document is skipped silently.  The requestBody step of the body
subscripts `api_spec["paths"][path][method]` without a guard, so a
violation addressing the absent path `/gone` raises KeyError instead of
being skipped. -/
theorem missing_target_raises_keyerror :
    fix_spec aiStub docC3 [vGone] = .error (.keyError "/gone") := rfl

/-- C4.  The claim says `Validate` never raises, treating absent fields
as missing.  The SEC002 predicate evaluates
`details.get("security", [dict()])[0]` whenever the key is present, so a
present-but-empty security list raises IndexError. -/
theorem validator_empty_security_raises_indexerror :
    validate_spec docSec rulesSEC002 = .error .indexError := rfl

/-- C5.  The claim says the null-response sanitation pass runs before
any fix handler and again at the end, so the null slot is repaired after
`Fix`.  In the code the sweep sits after the dispatch handlers inside the
loop body, so a PERF001 violation reaches the null 200 response first and
raises TypeError; the sweep itself would have repaired the slot and is
idempotent, as the second and third conjuncts show. -/
theorem sanitation_runs_after_handlers_not_before :
    fix_spec aiStub docC5 [vPerf] = .error .typeError ∧
    sanitizeDoc docC5 = .ok docC5s ∧
    sanitizeDoc docC5s = .ok docC5s :=
  ⟨rfl, rfl, rfl⟩

/-- C6.  Two successive calls of `validate_spec` on the same unmutated
document return identical violation sequences, and the call leaves the
document unchanged (the returned document state equals the input). -/
theorem validate_spec_pure_deterministic (d r : J) (vs₁ : List J) (d₁ : J)
    (vs₂ : List J) (d₂ : J)
    (h₁ : validate_spec d r = .ok (vs₁, d₁))
    (h₂ : validate_spec d₁ r = .ok (vs₂, d₂)) :
    vs₂ = vs₁ ∧ d₁ = d ∧ d₂ = d := by
  unfold validate_spec at h₁
  cases hcr : validateRules d r with
  | error e => rw [hcr] at h₁; exact absurd h₁ (by simp)
  | ok vs =>
      rw [hcr] at h₁
      simp at h₁
      obtain ⟨hv, hd⟩ := h₁
      subst hd
      subst hv
      unfold validate_spec at h₂
      rw [hcr] at h₂
      simp at h₂
      obtain ⟨hv2, hd2⟩ := h₂
      exact ⟨hv2.symm, rfl, hd2.symm⟩

/-- Witness for C6 at a concrete document and catalog. -/
theorem validate_spec_pure_deterministic_witness :
    ([vW] = [vW]) ∧ (dW = dW) ∧ (dW = dW) :=
  validate_spec_pure_deterministic dW rW [vW] dW [vW] dW (by rfl) (by rfl)

/-- C7.  `generate_ai_content` is a total function into strings (it
never raises to its caller): on a successful underlying call it returns
the stripped generated text, and on any underlying failure it returns
the fixed fallback string. -/
theorem generate_ai_content_never_raises (ai : String → Except PyErr String)
    (p : String) :
    (∀ e, ai p = .error e →
      generate_ai_content ai p = "This is a fallback placeholder.") ∧
    (∀ t, ai p = .ok t → generate_ai_content ai p = pyStrip t) := by
  constructor
  · intro e he
    unfold generate_ai_content
    rw [he]
  · intro t ht
    unfold generate_ai_content
    rw [ht]

/-- Witness for C7 with a failing underlying call. -/
theorem generate_ai_content_never_raises_witness :
    generate_ai_content aiStub "x" = "This is a fallback placeholder." :=
  (generate_ai_content_never_raises aiStub "x").1 PyErr.typeError rfl

/-- C8.  The claim says an OP_ID001 fix under adapter failure assigns
the method-derived placeholder.  Because the adapter's fallback string is
non-empty, the truthiness test on the generated id succeeds and the
operation receives the generic fallback text, never the placeholder
`operationId_placeholder_get`; that branch of the code is unreachable. -/
theorem opid_failure_assigns_generic_fallback :
    fix_spec aiStub docC8 [vC8] = .ok (docC8r, [vC8], some ()) ∧
    opFieldLookup docC8r "/a" "get" "operationId" =
      some (J.str "This is a fallback placeholder.") ∧
    ("This is a fallback placeholder." ≠ "operationId_placeholder_get") :=
  ⟨rfl, rfl, by decide⟩

/-- C9.  `to_snake_case` is idempotent: a second application inserts no
underscores (the first pass left no uppercase letters) and lowercasing
is idempotent. -/
theorem to_snake_case_idempotent (s : String) :
    to_snake_case (to_snake_case s) = to_snake_case s := by
  obtain ⟨data⟩ := s
  cases data with
  | nil => rfl
  | cons c cs =>
      show to_snake_case ⟨(c :: snakeIns cs).map pyLowerChar⟩ = _
      show (⟨(pyLowerChar c :: snakeIns ((snakeIns cs).map pyLowerChar)).map pyLowerChar⟩ : String)
        = ⟨(c :: snakeIns cs).map pyLowerChar⟩
      rw [snakeIns_of_no_upper ((snakeIns cs).map pyLowerChar) (by
        intro d hd
        obtain ⟨e, _, rfl⟩ := List.mem_map.mp hd
        exact pyLowerChar_not_upper e)]
      congr 1
      show pyLowerChar (pyLowerChar c) :: ((snakeIns cs).map pyLowerChar).map pyLowerChar
        = pyLowerChar c :: (snakeIns cs).map pyLowerChar
      rw [pyLowerChar_idem, map_pyLowerChar_idem]

/-- C10.  With an empty violation list the loop never runs, the function
falls off its end, and `fix_spec` returns None (not the document); the
document is left unchanged. -/
theorem fix_spec_empty_list_returns_none (ai : String → Except PyErr String)
    (d : J) : fix_spec ai d [] = .ok (d, [], none) := rfl

end Cartlis
